import Mathlib

/-!
Verification of the MATURA UI generation engine (`UIGenerator`).

The development shallowly embeds the TypeScript class `UIGenerator`:
pure string manipulation (`extractCodeFromResponse`, `buildUIPrompt`,
`generateEnhancedFallbackUI`) becomes pure Lean functions on `String`,
the single external fetch becomes an oracle value of type `ApiResponse`
describing the outcome of the request, and the filesystem effects of
`saveGeneratedUI` / `validateGeneratedUI` become explicit state passing
over a `FileSystem` value, with fallible operations returning `Except`.
-/

namespace Matura

set_option maxRecDepth 16384

/-- The backtick character, written by code point to keep it out of the
source text of this file. -/
def bt : Char := Char.ofNat 96

/-- Whitespace in the sense of the JavaScript `String.prototype.trim`
(restricted to the ASCII whitespace characters that can occur here). -/
def wsChar (c : Char) : Bool :=
  c = ' ' || c = '\t' || c = '\n' || c = '\r' || c = '\x0b' || c = '\x0c'

/-- Remove trailing whitespace, as the second half of `trim`. -/
def trimRight (s : List Char) : List Char :=
  ((s.reverse).dropWhile wsChar).reverse

/-- JavaScript `String.prototype.trim` on a list of characters: drop
leading and trailing whitespace. -/
def jsTrim (s : List Char) : List Char :=
  (trimRight s).dropWhile wsChar

/-- JavaScript `String.prototype.trim` at string level. -/
def strTrim (s : String) : String :=
  ⟨jsTrim s.toList⟩

/-- Attempt to match the opening fence of the regex
`三backtick(?:typescript|tsx|ts)?newline` at the head of `s`, following the
alternation order of the JavaScript regex.  On success, return the matched
opening text together with the remainder of the input.  The four
alternatives are mutually exclusive because each must be followed by a
newline. -/
def tryOpen (s : List Char) : Option (List Char × List Char) :=
  if ("```typescript\n".toList).isPrefixOf s then
    some ("```typescript\n".toList, s.drop 14)
  else if ("```tsx\n".toList).isPrefixOf s then
    some ("```tsx\n".toList, s.drop 7)
  else if ("```ts\n".toList).isPrefixOf s then
    some ("```ts\n".toList, s.drop 6)
  else if ("```\n".toList).isPrefixOf s then
    some ("```\n".toList, s.drop 4)
  else none

/-- Search for the closing fence: the lazy `[sS]*?` of the regex makes the
match end at the first occurrence of a newline followed by three backticks.
Return the content before that occurrence, or `none` when the input has no
closing fence. -/
def findClose (s : List Char) : Option (List Char) :=
  match s with
  | [] => none
  | c :: r =>
    if ("\n```".toList).isPrefixOf (c :: r) then some []
    else
      match findClose r with
      | some cont => some (c :: cont)
      | none => none

/-- The leftmost match of the code block regex
`三backtick(?:typescript|tsx|ts)?newline([sS]*?)newline三backtick` as the
JavaScript engine finds it: try each start position from the left; at a
position the opening fence must match and a closing fence must occur
later.  Returns the full matched text (`matches[0]`). -/
def firstMatch (s : List Char) : Option (List Char) :=
  match s with
  | [] => none
  | a :: r =>
    match tryOpen (a :: r) with
    | some (op, rest) =>
      match findClose rest with
      | some cont => some (op ++ cont ++ "\n```".toList)
      | none => firstMatch r
    | none => firstMatch r

/-- Consume an optional language tag right after three backticks, in the
alternation order of the cleanup regex `三backtick(?:typescript|tsx|ts)?newline?`
(no newline requirement here). -/
def tagDrop (t : List Char) : List Char :=
  if ("typescript".toList).isPrefixOf t then t.drop 10
  else if ("tsx".toList).isPrefixOf t then t.drop 3
  else if ("ts".toList).isPrefixOf t then t.drop 2
  else t

/-- Consume the optional newline of the cleanup regex. -/
def nlDrop (t : List Char) : List Char :=
  match t with
  | [] => []
  | c :: r => if c = '\n' then r else c :: r

/-- Fuelled worker for `stripFences`; the fuel only serves to make the
recursion structural, `stripFences` always supplies enough. -/
def stripFencesAux : Nat → List Char → List Char
  | 0, s => s
  | _ + 1, [] => []
  | fuel + 1, a :: r =>
    if ("```".toList).isPrefixOf (a :: r) then
      stripFencesAux fuel (nlDrop (tagDrop (r.drop 2)))
    else
      a :: stripFencesAux fuel r

/-- The first cleanup step of `extractCodeFromResponse`: the global
replacement `replace(三backtick(?:typescript|tsx|ts)?newline?, empty)`, which
deletes every fence marker (with optional tag and optional newline),
scanning left to right and continuing after each deletion. -/
def stripFences (s : List Char) : List Char :=
  stripFencesAux s.length s

/-- The second cleanup step: `replace(newline三backtick dollar, empty)`,
removing one trailing newline-plus-fence if present. -/
def stripEndFence (s : List Char) : List Char :=
  if ("\n```".toList).isSuffixOf s then s.take (s.length - 4) else s

/-- `UIGenerator.extractCodeFromResponse`: look for fenced code blocks; if
at least one is found, clean up the first match and trim it, otherwise
return the whole response trimmed. -/
def extractCodeFromResponse (response : String) : String :=
  match firstMatch response.toList with
  | some m => ⟨jsTrim (stripEndFence (stripFences m))⟩
  | none => ⟨jsTrim response.toList⟩

/-- The pieces of the fallback template literal, in source order.  The
literal is split into consecutive pieces only to keep kernel reduction
shallow; the concatenation below is the template text verbatim. -/
def fallbackParts : List String :=
  ["\x27use client\x27\n\nimport React from \x27react\x27\nimport \x7b Button \x7d from \x27@/components/ui/button\x27\nimport \x7b Card, CardContent, CardDescription, CardHeader, CardTitle \x7d from \x27@/components/ui/card\x27\nimport \x7b Badge \x7d from \x27@/components/ui/badge\x27\n",
   "import \x7b ArrowRight, Calculator, TrendingUp, Shield, Users \x7d from \x27lucide-react\x27\nimport \x7b useFuyouStore \x7d from \x27@/store/fuyouStore\x27\n\n/**\n * MATURA Generated UI - 扶養控除計算アプリ\n * 自動生成されたUI雛形\n */\nexport default function GeneratedUI() \x7b\n  // ===== Zustand Store 連携 =====\n  const \x7b \n",
   "    income, \n    remainingLimit, \n    dependentCount,\n    updateIncome, \n    addDependent, \n    removeDependent,\n    calculateRemaining \n  \x7d = useFuyouStore()\n\n  // ===== Event Handlers =====\n  const handleIncomeUpdate = () => \x7b\n",
   "    console.log(\x27🔄 [Generated UI] Income update triggered\x27)\n    updateIncome(income + 100000) // 10万円追加例\n    calculateRemaining()\n    console.log(`💰 Updated income: ¥$\x7bincome.toLocaleString()\x7d`)\n    console.log(`📊 Remaining limit: ¥$\x7bremainingLimit.toLocaleString()\x7d`)\n  \x7d\n\n",
   "  const handleDependentAdd = () => \x7b\n    console.log(\x27👥 [Generated UI] Adding dependent\x27)\n    addDependent()\n    calculateRemaining()\n    console.log(`👨‍👩‍👧‍👦 Dependents: $\x7bdependentCount\x7d`)\n  \x7d\n\n  const handleCalculate = async () => \x7b\n",
   "    console.log(\x27🧮 [Generated UI] Starting calculation...\x27)\n    \n    // API呼び出しシミュレーション\n    try \x7b\n      const response = await fetch(\x27/api/fuyouCheck\x27, \x7b\n        method: \x27POST\x27,\n        headers: \x7b \x27Content-Type\x27: \x27application/json\x27 \x7d,\n",
   "        body: JSON.stringify(\x7b income, dependentCount \x7d)\n      \x7d)\n      \n      if (response.ok) \x7b\n        const result = await response.json()\n        console.log(\x27✅ [Generated UI] API call successful:\x27, result)\n        updateIncome(result.adjustedIncome || income)\n      \x7d\n",
   "    \x7d catch (error) \x7b\n      console.warn(\x27⚠️ [Generated UI] API call failed:\x27, error)\n    \x7d\n  \x7d\n\n  return (\n    <div className=\"min-h-screen bg-gradient-to-br from-blue-50 to-indigo-100\">\n      \x7b/* Hero Section */\x7d\n      <section className=\"relative overflow-hidden bg-white\">\n",
   "        <div className=\"container mx-auto px-6 py-20\">\n          <div className=\"text-center space-y-8\">\n            \x7b/* Badge */\x7d\n            <Badge className=\"bg-blue-100 text-blue-800 border-blue-200 px-4 py-2\">\n              <Calculator className=\"w-4 h-4 mr-2\" />\n",
   "              自動生成AI powered\n            </Badge>\n\n            \x7b/* Main Heading */\x7d\n            <h1 className=\"text-5xl md:text-6xl font-bold text-gray-900 leading-tight\">\n              <span className=\"text-blue-600\">扶養控除</span>\n              <br />\n",
   "              <span className=\"text-gray-800\">自動計算システム</span>\n            </h1>\n\n            \x7b/* Subtitle */\x7d\n            <p className=\"text-xl md:text-2xl text-gray-600 max-w-3xl mx-auto leading-relaxed\">\n              収入と扶養家族数を入力するだけで、\n",
   "              <span className=\"text-blue-600 font-semibold\">最適な控除額</span>\n              を自動計算します\n            </p>\n\n            \x7b/* 現在の状態表示 */\x7d\n            <div className=\"bg-blue-50 rounded-lg p-6 max-w-md mx-auto\">\n              <div className=\"space-y-3\">\n",
   "                <div className=\"flex justify-between items-center\">\n                  <span className=\"font-medium text-gray-700\">現在の収入:</span>\n                  <span className=\"text-2xl font-bold text-blue-600\">\n                    ¥\x7bincome.toLocaleString()\x7d\n",
   "                  </span>\n                </div>\n                <div className=\"flex justify-between items-center\">\n                  <span className=\"font-medium text-gray-700\">扶養家族数:</span>\n                  <span className=\"text-xl font-semibold text-green-600\">\n",
   "                    \x7bdependentCount\x7d人\n                  </span>\n                </div>\n                <div className=\"flex justify-between items-center\">\n                  <span className=\"font-medium text-gray-700\">控除可能額:</span>\n",
   "                  <span className=\"text-2xl font-bold text-orange-600\">\n                    ¥\x7bremainingLimit.toLocaleString()\x7d\n                  </span>\n                </div>\n              </div>\n            </div>\n\n            \x7b/* CTA Buttons */\x7d\n",
   "            <div className=\"flex flex-col sm:flex-row gap-4 justify-center items-center pt-8\">\n              <Button \n                size=\"lg\" \n                onClick=\x7bhandleIncomeUpdate\x7d\n",
   "                className=\"bg-blue-600 hover:bg-blue-700 text-white px-8 py-6 text-lg font-semibold shadow-lg hover:shadow-xl transition-all duration-200\"\n              >\n                <TrendingUp className=\"w-5 h-5 mr-2\" />\n                収入を更新\n",
   "                <ArrowRight className=\"w-5 h-5 ml-2\" />\n              </Button>\n              \n              <Button \n                variant=\"outline\" \n                size=\"lg\"\n                onClick=\x7bhandleDependentAdd\x7d\n",
   "                className=\"border-blue-300 text-blue-700 hover:bg-blue-50 px-8 py-6 text-lg font-semibold transition-all duration-200\"\n              >\n                <Users className=\"w-5 h-5 mr-2\" />\n                扶養者を追加\n              </Button>\n\n              <Button \n",
   "                size=\"lg\"\n                onClick=\x7bhandleCalculate\x7d\n                className=\"bg-green-600 hover:bg-green-700 text-white px-8 py-6 text-lg font-semibold shadow-lg hover:shadow-xl transition-all duration-200\"\n              >\n",
   "                <Calculator className=\"w-5 h-5 mr-2\" />\n                再計算実行\n              </Button>\n            </div>\n          </div>\n        </div>\n      </section>\n\n      \x7b/* Features Cards Section */\x7d\n      <section className=\"py-20 px-6\">\n",
   "        <div className=\"container mx-auto\">\n          <div className=\"text-center mb-16\">\n            <h2 className=\"text-3xl md:text-4xl font-bold text-gray-900 mb-4\">\n              なぜ<span className=\"text-blue-600\">自動計算</span>なのか？\n            </h2>\n",
   "            <p className=\"text-lg text-gray-600 max-w-2xl mx-auto\">\n              複雑な扶養控除計算を自動化し、最適な節税効果を実現\n            </p>\n          </div>\n\n          <div className=\"grid md:grid-cols-2 lg:grid-cols-3 gap-8\">\n            \x7b/* Feature Card 1 */\x7d\n",
   "            <Card className=\"bg-white border border-gray-200 shadow-md hover:shadow-lg transition-shadow duration-200\">\n              <CardHeader className=\"text-center pb-4\">\n",
   "                <div className=\"mx-auto w-12 h-12 bg-blue-100 rounded-lg flex items-center justify-center mb-4\">\n                  <Calculator className=\"w-6 h-6 text-blue-600\" />\n                </div>\n                <CardTitle className=\"text-xl font-semibold text-gray-900\">\n",
   "                  自動計算\n                </CardTitle>\n                <CardDescription className=\"text-gray-600\">\n                  収入と扶養者数から最適な控除額を自動算出\n                </CardDescription>\n              </CardHeader>\n              <CardContent>\n",
   "                <ul className=\"space-y-2 text-sm text-gray-600\">\n                  <li className=\"flex items-center\">\n                    <div className=\"w-2 h-2 bg-blue-500 rounded-full mr-3\"></div>\n                    リアルタイム計算\n                  </li>\n",
   "                  <li className=\"flex items-center\">\n                    <div className=\"w-2 h-2 bg-blue-500 rounded-full mr-3\"></div>\n                    税制対応\n                  </li>\n                  <li className=\"flex items-center\">\n",
   "                    <div className=\"w-2 h-2 bg-blue-500 rounded-full mr-3\"></div>\n                    履歴管理\n                  </li>\n                </ul>\n              </CardContent>\n            </Card>\n\n            \x7b/* Feature Card 2 */\x7d\n",
   "            <Card className=\"bg-white border border-gray-200 shadow-md hover:shadow-lg transition-shadow duration-200\">\n              <CardHeader className=\"text-center pb-4\">\n",
   "                <div className=\"mx-auto w-12 h-12 bg-green-100 rounded-lg flex items-center justify-center mb-4\">\n                  <Shield className=\"w-6 h-6 text-green-600\" />\n                </div>\n                <CardTitle className=\"text-xl font-semibold text-gray-900\">\n",
   "                  データ保護\n                </CardTitle>\n                <CardDescription className=\"text-gray-600\">\n                  個人情報の安全な管理と暗号化処理\n                </CardDescription>\n              </CardHeader>\n              <CardContent>\n",
   "                <ul className=\"space-y-2 text-sm text-gray-600\">\n                  <li className=\"flex items-center\">\n                    <div className=\"w-2 h-2 bg-green-500 rounded-full mr-3\"></div>\n                    暗号化保存\n                  </li>\n",
   "                  <li className=\"flex items-center\">\n                    <div className=\"w-2 h-2 bg-green-500 rounded-full mr-3\"></div>\n                    GDPR準拠\n                  </li>\n                  <li className=\"flex items-center\">\n",
   "                    <div className=\"w-2 h-2 bg-green-500 rounded-full mr-3\"></div>\n                    監査ログ\n                  </li>\n                </ul>\n              </CardContent>\n            </Card>\n\n            \x7b/* Feature Card 3 */\x7d\n",
   "            <Card className=\"bg-white border border-gray-200 shadow-md hover:shadow-lg transition-shadow duration-200\">\n              <CardHeader className=\"text-center pb-4\">\n",
   "                <div className=\"mx-auto w-12 h-12 bg-purple-100 rounded-lg flex items-center justify-center mb-4\">\n                  <TrendingUp className=\"w-6 h-6 text-purple-600\" />\n                </div>\n",
   "                <CardTitle className=\"text-xl font-semibold text-gray-900\">\n                  最適化提案\n                </CardTitle>\n                <CardDescription className=\"text-gray-600\">\n                  AI分析による節税効果の最大化提案\n                </CardDescription>\n",
   "              </CardHeader>\n              <CardContent>\n                <ul className=\"space-y-2 text-sm text-gray-600\">\n                  <li className=\"flex items-center\">\n                    <div className=\"w-2 h-2 bg-purple-500 rounded-full mr-3\"></div>\n",
   "                    AI分析\n                  </li>\n                  <li className=\"flex items-center\">\n                    <div className=\"w-2 h-2 bg-purple-500 rounded-full mr-3\"></div>\n                    最適化案\n                  </li>\n",
   "                  <li className=\"flex items-center\">\n                    <div className=\"w-2 h-2 bg-purple-500 rounded-full mr-3\"></div>\n                    シミュレーション\n                  </li>\n                </ul>\n              </CardContent>\n            </Card>\n          </div>\n",
   "        </div>\n      </section>\n\n      \x7b/* Final CTA Section */\x7d\n      <section className=\"py-20 px-6 bg-white\">\n        <div className=\"container mx-auto\">\n          <Card className=\"bg-gradient-to-r from-blue-500/10 via-purple-500/10 to-pink-500/10 border-blue-200\">\n",
   "            <CardContent className=\"p-16 text-center\">\n              <h3 className=\"text-3xl md:text-4xl font-bold text-gray-900 mb-4\">\n                今すぐ<span className=\"text-blue-600\">最適化</span>を始めませんか？\n              </h3>\n",
   "              <p className=\"text-lg text-gray-600 mb-8 max-w-2xl mx-auto\">\n                数分で扶養控除の最適化が完了し、年間数万円の節税効果を実現できます\n              </p>\n              <div className=\"flex flex-col sm:flex-row gap-4 justify-center\">\n                <Button \n                  size=\"lg\"\n",
   "                  onClick=\x7bhandleCalculate\x7d\n                  className=\"bg-blue-600 hover:bg-blue-700 text-white px-12 py-6 text-xl font-semibold shadow-lg hover:shadow-xl transition-all duration-200\"\n                >\n                  <Calculator className=\"w-6 h-6 mr-2\" />\n",
   "                  無料で計算開始\n                  <ArrowRight className=\"w-6 h-6 ml-2\" />\n                </Button>\n                <Button \n                  variant=\"outline\"\n                  size=\"lg\"\n                  onClick=\x7b() => console.log(\x27📊 詳細ガイド表示\x27)\x7d\n",
   "                  className=\"border-blue-300 text-blue-700 hover:bg-blue-50 px-12 py-6 text-xl transition-all duration-200\"\n                >\n                  詳細ガイドを見る\n                </Button>\n              </div>\n              \n",
   "              <div className=\"mt-8 text-sm text-gray-500\">\n                🤖 このUIは MATURA AI によって自動生成されました\n              </div>\n            </CardContent>\n          </Card>\n        </div>\n      </section>\n    </div>\n  )\n\x7d"]

/-- Concatenation of a list of strings, in order. -/
def concatList : List String → String
  | [] => ""
  | s :: r => s ++ concatList r

/-- `UIGenerator.generateEnhancedFallbackUI`: the fixed fallback template
returned whenever the API path is unavailable or fails.  The text is the
template literal of the source, verbatim: the concatenation of
`fallbackParts` (backticks restored from the escaped template literal;
braces and apostrophes are written with hexadecimal escapes). -/
def generateEnhancedFallbackUI : String :=
  concatList fallbackParts

/-- The theme union type of `UIGenerationOptions`. -/
inductive UITheme where
  | modern
  | minimal
  | professional
deriving DecidableEq, Repr

/-- Render a theme the way it is interpolated into the prompt. -/
def UITheme.text : UITheme → String
  | .modern => "modern"
  | .minimal => "minimal"
  | .professional => "professional"

/-- The `UIGenerationOptions` interface; optional fields become `Option`. -/
structure UIGenerationOptions where
  appIdea : String
  theme : Option UITheme := none
  features : Option (List String) := none
  apiKey : Option String := none
deriving DecidableEq, Repr

/-- `UIGenerator.buildUIPrompt`: pure construction of the instruction text,
destructuring `theme` (default `modern`) and `features` (default empty,
and never used) from the options. -/
def buildUIPrompt (appIdea : String) (options : UIGenerationOptions) : String :=
  let theme := options.theme.getD UITheme.modern
  "\nGenerate a complete Next.js 14 App Router React component for the following application idea:\n\nAPPLICATION IDEA: " ++ appIdea ++ "\n\nREQUIREMENTS:\n1. Use \x27use client\x27 directive\n2. Import and use shadcn/ui components: Button, Card, CardContent, CardDescription, CardHeader, CardTitle, Badge\n3. Import appropriate Lucide React icons based on the app idea\n4. Use Tailwind CSS for styling with " ++ theme.text ++ " theme\n5. Import useStore from the appropriate store file\n\nDYNAMIC UI STRUCTURE:\n- Analyze the application idea and create appropriate UI sections\n- Hero section with compelling headline based on the app\n- Display key data/metrics from the store\n- Action buttons that match the app\x27s primary functions\n- Feature cards showcasing the app\x27s value propositions\n- Final CTA section encouraging user engagement\n\nFUNCTIONALITY:\n- Create onClick handlers appropriate to the application\n- Integrate with the generated store actions\n- Include console.log statements for debugging\n- Make API calls to appropriate endpoints\n- Display real data from the store\n- Include loading states and error handling\n\nSTYLING:\n- Use gradient backgrounds and modern CSS\n- Responsive design (mobile-first)\n- Professional color scheme appropriate to the app\n- Hover effects and transitions\n- Clean typography\n\nOUTPUT REQUIREMENTS:\n- Return ONLY the complete TypeScript React component code\n- Include all imports at the top\n- Add JSDoc comments\n- Use proper TypeScript types\n- Include console.log statements for debugging\n- Make it production-ready\n- Code should work immediately without modifications\n\nGenerate the complete component now:\n"

/-- Outcome of the single `fetch` against the Gemini endpoint, as
classified by `callGeminiAPI`:
* `fetchError` — the fetch itself rejects (network failure);
* `httpError status` — a response with `ok = false` (non-success status);
* `jsonError` — a success response whose body fails to parse as JSON;
* `success text` — a parsed JSON body, with
  `text = candidates[0].content.parts[0].text` when that chain of fields
  is present (`none` models any missing field along the chain). -/
inductive ApiResponse where
  | fetchError
  | httpError (status : Nat)
  | jsonError
  | success (text : Option String)
deriving DecidableEq, Repr

/-- The POST request issued to the model endpoint: the credential placed
in the query parameter of the URL, and the prompt placed in the body. -/
structure GeminiRequest where
  key : String
  prompt : String
deriving DecidableEq, Repr

/-- Result of `callGeminiAPI`: the returned source text, together with the
request that was sent over the network (`none` when the call was skipped).
The request component is an observation of the embedding; the TypeScript
method returns only the text. -/
structure CallResult where
  code : String
  request : Option GeminiRequest
deriving DecidableEq, Repr

/-- `UIGenerator.callGeminiAPI`: with no credential, skip the network and
return the fallback; otherwise issue one request and classify the outcome.
A thrown error anywhere in the `try` block (fetch rejection, non-success
status, JSON failure, empty or missing generated text) is caught and
answered with the fallback.  The function is total: it never fails. -/
def callGeminiAPI (apiKey : Option String) (prompt : String)
    (api : ApiResponse) : CallResult :=
  match apiKey with
  | none => ⟨generateEnhancedFallbackUI, none⟩
  | some key =>
    let req : GeminiRequest := ⟨key, prompt⟩
    match api with
    | .fetchError => ⟨generateEnhancedFallbackUI, some req⟩
    | .httpError _ => ⟨generateEnhancedFallbackUI, some req⟩
    | .jsonError => ⟨generateEnhancedFallbackUI, some req⟩
    | .success text =>
      let generatedContent := text.getD ""
      if generatedContent = "" then ⟨generateEnhancedFallbackUI, some req⟩
      else ⟨extractCodeFromResponse generatedContent, some req⟩

/-- Errors of the modelled filesystem operations. -/
inductive FsError where
  | mkdirFailed (path : String)
  | writeFailed (path : String)
  | readFailed (path : String)
  | notAFile (path : String)
deriving DecidableEq, Repr

/-- The filesystem state: directories, files with their contents, and the
set of paths on which an operation raises (permission failures and the
like). -/
structure FileSystem where
  dirs : List String
  files : List (String × String)
  failing : List String
deriving DecidableEq, Repr

/-- `existsSync`: true when the path names a directory or a file. -/
def existsSync (fs : FileSystem) (p : String) : Bool :=
  fs.dirs.contains p || (fs.files.lookup p).isSome

/-- `mkdirSync(p, recursive)`: record the directory. -/
def mkdirSync (fs : FileSystem) (p : String) : Except FsError FileSystem :=
  if fs.failing.contains p then .error (.mkdirFailed p)
  else .ok { fs with dirs := p :: fs.dirs }

/-- `writeFileSync`: replace whatever was stored at the path. -/
def writeFileSync (fs : FileSystem) (p : String) (content : String) :
    Except FsError FileSystem :=
  if fs.failing.contains p then .error (.writeFailed p)
  else .ok { fs with files := (p, content) :: fs.files.filter (fun kv => !(kv.1 == p)) }

/-- `readFileSync`: the stored content of a file. -/
def readFileSync (fs : FileSystem) (p : String) : Except FsError String :=
  if fs.failing.contains p then .error (.readFailed p)
  else
    match fs.files.lookup p with
    | some c => .ok c
    | none => .error (.notAFile p)

/-- The content currently stored for a file path. -/
def fileContent (fs : FileSystem) (p : String) : Option String :=
  fs.files.lookup p

/-- All contents stored at a path (the overwrite discipline keeps this a
singleton for written paths). -/
def contentsAt (fs : FileSystem) (p : String) : List String :=
  (fs.files.filter (fun kv => kv.1 == p)).map (fun kv => kv.2)

/-- Node `path.join`, modelled as separator concatenation (the paths built
by the generator never need normalisation). -/
def joinPath (a b : String) : String := a ++ "/" ++ b

/-- The state of a `UIGenerator` instance: the project root given to the
constructor and the credential resolved once from
`process.env.GEMINI_API_KEY` (absent variable becomes `none`). -/
structure UIGenerator where
  projectRoot : String
  apiKey : Option String
deriving DecidableEq, Repr

/-- The `UIGenerator` constructor. -/
def UIGenerator.make (projectRoot : String) (envGeminiApiKey : Option String) :
    UIGenerator :=
  ⟨projectRoot, envGeminiApiKey⟩

/-- `UIGenerator.saveGeneratedUI`: resolve `projectRoot/app/GeneratedUI.tsx`,
create the directory when absent, write the code, return the path. -/
def saveGeneratedUI (g : UIGenerator) (code : String) (fs : FileSystem) :
    Except FsError (String × FileSystem) :=
  let outputDir := joinPath g.projectRoot "app"
  let outputPath := joinPath outputDir "GeneratedUI.tsx"
  let step1 : Except FsError FileSystem :=
    if !(existsSync fs outputDir) then mkdirSync fs outputDir else .ok fs
  match step1 with
  | .error e => .error e
  | .ok fs1 =>
    match writeFileSync fs1 outputPath code with
    | .error e => .error e
    | .ok fs2 => .ok (outputPath, fs2)

/-- `UIGenerator.generateUI`: build the prompt, run the generation call,
save the result.  The `catch` of the source logs and rethrows the same
error, so a filesystem error passes through unmodified.  The returned
triple is the written path, the updated filesystem, and the observed API
request. -/
def UIGenerator.generateUI (g : UIGenerator) (options : UIGenerationOptions)
    (api : ApiResponse) (fs : FileSystem) :
    Except FsError (String × FileSystem × Option GeminiRequest) :=
  let prompt := buildUIPrompt options.appIdea options
  let result := callGeminiAPI g.apiKey prompt api
  match saveGeneratedUI g result.code fs with
  | .ok (path, fs2) => .ok (path, fs2, result.request)
  | .error e => .error e

/-- The five required markers of `validateGeneratedUI`. -/
def requiredElements : List String :=
  ["\x27use client\x27",
   "export default function GeneratedUI",
   "useFuyouStore",
   "onClick",
   "console.log"]

/-- JavaScript `String.prototype.includes`: substring containment. -/
def strIncludesAux (needle : List Char) : List Char → Bool
  | [] => needle.isPrefixOf []
  | c :: r => needle.isPrefixOf (c :: r) || strIncludesAux needle r

/-- `content.includes(element)` of the validation loop. -/
def strIncludes (s sub : String) : Bool :=
  strIncludesAux sub.toList s.toList

/-- The markers of `requiredElements` missing from a content string. -/
def missingElements (content : String) : List String :=
  requiredElements.filter (fun e => !(strIncludes content e))

/-- `UIGenerator.validateGeneratedUI`: the whole body sits in a `try` whose
`catch` returns `false`, so a missing file (the explicitly thrown error)
or a failing read yields `false`; otherwise the result is whether no
required marker is missing.  The filesystem is only read, never changed. -/
def validateGeneratedUI (fs : FileSystem) (filePath : String) : Bool :=
  if !(existsSync fs filePath) then false
  else
    match readFileSync fs filePath with
    | .error _ => false
    | .ok content => (missingElements content).length == 0

/-- The failure classification of section 4.2 of the design: fetch
rejection, non-success status, unparsable body, or a missing or empty
generated-text field. -/
def apiFailure : ApiResponse → Bool
  | .fetchError => true
  | .httpError _ => true
  | .jsonError => true
  | .success t => t.getD "" == ""

/-- The API request observed in a `generateUI` run, `none` when the run
failed or issued no request. -/
def requestOf :
    Except FsError (String × FileSystem × Option GeminiRequest) → Option GeminiRequest
  | .ok (_, _, req) => req
  | .error _ => none

lemma strIncludesAux_append_of_right (n a b : List Char)
    (h : strIncludesAux n b = true) : strIncludesAux n (a ++ b) = true := by
  induction a with
  | nil => simpa using h
  | cons x xs ih =>
    simp only [List.cons_append, strIncludesAux, Bool.or_eq_true]
    exact Or.inr ih

lemma strIncludesAux_self_or (n s : List Char)
    (h : n.isPrefixOf s = true) : strIncludesAux n s = true := by
  cases s with
  | nil => simpa [strIncludesAux] using h
  | cons c r => simp [strIncludesAux, h]

lemma strIncludesAux_append_of_left (n a b : List Char)
    (h : strIncludesAux n a = true) : strIncludesAux n (a ++ b) = true := by
  induction a with
  | nil =>
    simp only [strIncludesAux, List.isPrefixOf_iff_prefix] at h
    have hn : n = [] := List.prefix_nil.mp h
    subst hn
    cases b with
    | nil => simp [strIncludesAux]
    | cons c r => simp [strIncludesAux]
  | cons x xs ih =>
    simp only [strIncludesAux, Bool.or_eq_true] at h
    rcases h with h | h
    · apply strIncludesAux_self_or
      rw [ List.isPrefixOf_iff_prefix] at h ⊢
      exact h.trans (List.prefix_append _ _)
    · simp only [List.cons_append, strIncludesAux, Bool.or_eq_true]
      exact Or.inr (ih h)

lemma strIncludes_concatList_of_mem (m p : String) (parts : List String)
    (hp : p ∈ parts) (h : strIncludes p m = true) :
    strIncludes (concatList parts) m = true := by
  induction parts with
  | nil => cases hp
  | cons q qs ih =>
    rcases List.mem_cons.mp hp with h1 | hmem
    · subst h1
      simp only [strIncludes, String.toList, concatList] at h ⊢
      rw [String.data_append]
      exact strIncludesAux_append_of_left _ _ _ h
    · simp only [strIncludes, String.toList, concatList] at ih ⊢
      rw [String.data_append]
      exact strIncludesAux_append_of_right _ _ _ (ih hmem)

lemma fallback_contains (m : String)
    (h : fallbackParts.any (fun p => strIncludes p m) = true) :
    strIncludes generateEnhancedFallbackUI m = true := by
  rcases List.any_eq_true.mp h with ⟨p, hp, hpm⟩
  exact strIncludes_concatList_of_mem m p fallbackParts hp hpm

lemma fallback_marker1 : strIncludes generateEnhancedFallbackUI "\x27use client\x27" = true :=
  fallback_contains _ (by decide)

lemma fallback_marker2 :
    strIncludes generateEnhancedFallbackUI "export default function GeneratedUI" = true :=
  fallback_contains _ (by decide)

lemma fallback_marker3 : strIncludes generateEnhancedFallbackUI "useFuyouStore" = true :=
  fallback_contains _ (by decide)

lemma fallback_marker4 : strIncludes generateEnhancedFallbackUI "onClick" = true :=
  fallback_contains _ (by decide)

lemma fallback_marker5 : strIncludes generateEnhancedFallbackUI "console.log" = true :=
  fallback_contains _ (by decide)

lemma fallback_missing_none : missingElements generateEnhancedFallbackUI = [] := by
  simp [missingElements, requiredElements, List.filter, fallback_marker1, fallback_marker2,
    fallback_marker3, fallback_marker4, fallback_marker5]


lemma isPrefixOf_append_self (x r : List Char) : x.isPrefixOf (x ++ r) = true :=
  List.isPrefixOf_iff_prefix.mpr (List.prefix_append _ _)

lemma tryOpen_openT (r : List Char) :
    tryOpen ("```typescript\n".toList ++ r) = some ("```typescript\n".toList, r) := by
  have hT := isPrefixOf_append_self "```typescript\n".toList r
  simp only [tryOpen, hT, if_true]
  exact rfl

lemma tryOpen_openX (r : List Char) :
    tryOpen ("```tsx\n".toList ++ r) = some ("```tsx\n".toList, r) := by
  have hT : ("```typescript\n".toList).isPrefixOf ("```tsx\n".toList ++ r) = false := rfl
  have hX := isPrefixOf_append_self "```tsx\n".toList r
  simp only [tryOpen, hT, hX, Bool.false_eq_true, if_false, if_true]
  exact rfl

lemma tryOpen_openS (r : List Char) :
    tryOpen ("```ts\n".toList ++ r) = some ("```ts\n".toList, r) := by
  have hT : ("```typescript\n".toList).isPrefixOf ("```ts\n".toList ++ r) = false := rfl
  have hX : ("```tsx\n".toList).isPrefixOf ("```ts\n".toList ++ r) = false := rfl
  have hS := isPrefixOf_append_self "```ts\n".toList r
  simp only [tryOpen, hT, hX, hS, Bool.false_eq_true, if_false, if_true]
  exact rfl

lemma tryOpen_openE (r : List Char) :
    tryOpen ("```\n".toList ++ r) = some ("```\n".toList, r) := by
  have hT : ("```typescript\n".toList).isPrefixOf ("```\n".toList ++ r) = false := rfl
  have hX : ("```tsx\n".toList).isPrefixOf ("```\n".toList ++ r) = false := rfl
  have hS : ("```ts\n".toList).isPrefixOf ("```\n".toList ++ r) = false := rfl
  have hE := isPrefixOf_append_self "```\n".toList r
  simp only [tryOpen, hT, hX, hS, hE, Bool.false_eq_true, if_false, if_true]
  exact rfl


lemma isPrefixOf_head_ne (c : Char) (x : List Char) (a : Char) (r : List Char)
    (h : c ≠ a) : (c :: x).isPrefixOf (a :: r) = false := by
  simp [List.isPrefixOf_cons₂, beq_eq_false_iff_ne.mpr h]

lemma fenceT_chars : "```typescript\n".toList =
    bt :: bt :: bt :: 't' :: 'y' :: 'p' :: 'e' :: 's' :: 'c' :: 'r' :: 'i' :: 'p' :: 't' :: '\n' :: [] := by
  decide

lemma fenceX_chars : "```tsx\n".toList = bt :: bt :: bt :: 't' :: 's' :: 'x' :: '\n' :: [] := by decide

lemma fenceS_chars : "```ts\n".toList = bt :: bt :: bt :: 't' :: 's' :: '\n' :: [] := by decide

lemma fenceE_chars : "```\n".toList = bt :: bt :: bt :: '\n' :: [] := by decide

lemma fence3_chars : "```".toList = bt :: bt :: bt :: [] := by decide

lemma nlfence_chars : "\n```".toList = '\n' :: bt :: bt :: bt :: [] := by decide

lemma tryOpen_cons_ne (a : Char) (r : List Char) (h : a ≠ bt) : tryOpen (a :: r) = none := by
  have hn : bt ≠ a := fun e => h e.symm
  have hT : ("```typescript\n".toList).isPrefixOf (a :: r) = false := by
    rw [fenceT_chars]; exact isPrefixOf_head_ne _ _ _ _ hn
  have hX : ("```tsx\n".toList).isPrefixOf (a :: r) = false := by
    rw [fenceX_chars]; exact isPrefixOf_head_ne _ _ _ _ hn
  have hS : ("```ts\n".toList).isPrefixOf (a :: r) = false := by
    rw [fenceS_chars]; exact isPrefixOf_head_ne _ _ _ _ hn
  have hE : ("```\n".toList).isPrefixOf (a :: r) = false := by
    rw [fenceE_chars]; exact isPrefixOf_head_ne _ _ _ _ hn
  simp only [tryOpen, hT, hX, hS, hE, Bool.false_eq_true, if_false]

lemma findClose_step_found (a : Char) (r : List Char)
    (h : ("\n```".toList).isPrefixOf (a :: r) = true) : findClose (a :: r) = some [] := by
  simp only [findClose]
  rw [if_pos h]

lemma findClose_step_miss (a : Char) (r : List Char)
    (h : ("\n```".toList).isPrefixOf (a :: r) = false) :
    findClose (a :: r) = (findClose r).map (fun cont => a :: cont) := by
  have hne : ¬(("\n```".toList).isPrefixOf (a :: r) = true) := by
    rw [h]; exact Bool.false_ne_true
  simp only [findClose]
  rw [if_neg hne]
  cases findClose r <;> rfl

lemma findClose_close (c post : List Char) (hc : bt ∉ c) :
    findClose (c ++ ("\n```".toList ++ post)) = some c := by
  induction c with
  | nil =>
    have h1 := isPrefixOf_append_self "\n```".toList post
    rw [List.nil_append]
    rw [nlfence_chars] at h1 ⊢
    simp only [List.cons_append, List.nil_append] at h1 ⊢
    rw [← nlfence_chars] at h1
    exact findClose_step_found _ _ h1
  | cons a c2 ih =>
    have hc2 : bt ∉ c2 := fun hm => hc (List.mem_cons_of_mem _ hm)
    have hmiss : ("\n```".toList).isPrefixOf (a :: (c2 ++ ("\n```".toList ++ post))) = false := by
      by_cases ha : a = '\n'
      · subst ha
        rw [nlfence_chars]
        simp only [List.isPrefixOf_cons₂, beq_self_eq_true, Bool.true_and]
        cases c2 with
        | nil =>
          simp only [List.nil_append, List.cons_append]
          exact isPrefixOf_head_ne _ _ _ _ (by decide)
        | cons b c3 =>
          have hbne : bt ≠ b := fun e => hc2 (e ▸ List.mem_cons_self _ _)
          simp only [List.cons_append]
          exact isPrefixOf_head_ne _ _ _ _ hbne
      · rw [nlfence_chars]
        exact isPrefixOf_head_ne _ _ _ _ (fun e => ha e.symm)
    rw [List.cons_append, findClose_step_miss _ _ hmiss, ih hc2]
    rfl

lemma tryOpen_nil : tryOpen [] = none := by decide

lemma firstMatch_eq_of_tryOpen (s op rest cont : List Char)
    (h1 : tryOpen s = some (op, rest)) (h2 : findClose rest = some cont) :
    firstMatch s = some (op ++ cont ++ "\n```".toList) := by
  cases s with
  | nil => rw [tryOpen_nil] at h1; cases h1
  | cons a r => simp [firstMatch, h1, h2]

lemma firstMatch_skip (a : Char) (r : List Char) (h : tryOpen (a :: r) = none) :
    firstMatch (a :: r) = firstMatch r := by
  simp [firstMatch, h]

lemma firstMatch_block (pre c post op : List Char)
    (hop : op = "```typescript\n".toList ∨ op = "```tsx\n".toList ∨
      op = "```ts\n".toList ∨ op = "```\n".toList)
    (hpre : bt ∉ pre) (hc : bt ∉ c) :
    firstMatch (pre ++ (op ++ (c ++ ("\n```".toList ++ post)))) =
      some (op ++ c ++ "\n```".toList) := by
  induction pre with
  | nil =>
    rw [List.nil_append]
    have h2 := findClose_close c post hc
    have h1 : tryOpen (op ++ (c ++ ("\n```".toList ++ post))) =
        some (op, c ++ ("\n```".toList ++ post)) := by
      rcases hop with rfl | rfl | rfl | rfl
      · exact tryOpen_openT _
      · exact tryOpen_openX _
      · exact tryOpen_openS _
      · exact tryOpen_openE _
    rw [firstMatch_eq_of_tryOpen _ _ _ _ h1 h2]
  | cons a pre2 ih =>
    have hane : a ≠ bt := fun e => hpre (e ▸ List.mem_cons_self _ _)
    have hpre2 : bt ∉ pre2 := fun hm => hpre (List.mem_cons_of_mem _ hm)
    rw [List.cons_append, firstMatch_skip _ _ (tryOpen_cons_ne _ _ hane), ih hpre2]


lemma nlDrop_length_le (t : List Char) : (nlDrop t).length ≤ t.length := by
  cases t with
  | nil => simp [nlDrop]
  | cons c r =>
    simp only [nlDrop]
    by_cases h : c = '\n'
    · simp [h, Nat.le_succ]
    · simp [h]

lemma tagDrop_length_le (t : List Char) : (tagDrop t).length ≤ t.length := by
  simp only [tagDrop]
  split
  · simp [List.length_drop]
  · split
    · simp [List.length_drop]
    · split
      · simp [List.length_drop]
      · exact Nat.le_refl _

lemma stripFencesAux_congr (f : Nat) : ∀ (g : Nat) (s : List Char),
    s.length ≤ f → s.length ≤ g → stripFencesAux f s = stripFencesAux g s := by
  induction f with
  | zero =>
    intro g s hf _
    have hs : s = [] := List.eq_nil_of_length_eq_zero (Nat.le_zero.mp hf)
    subst hs
    cases g <;> rfl
  | succ f2 ih =>
    intro g s hf hg
    cases s with
    | nil => cases g <;> rfl
    | cons a r =>
      cases g with
      | zero => exact absurd hg (by simp)
      | succ g2 =>
        have hrf : r.length ≤ f2 := by simpa using hf
        have hrg : r.length ≤ g2 := by simpa using hg
        have hsf : (nlDrop (tagDrop (r.drop 2))).length ≤ f2 :=
          le_trans (nlDrop_length_le _) (le_trans (tagDrop_length_le _)
            (le_trans (by simp [List.length_drop]) hrf))
        have hsg : (nlDrop (tagDrop (r.drop 2))).length ≤ g2 :=
          le_trans (nlDrop_length_le _) (le_trans (tagDrop_length_le _)
            (le_trans (by simp [List.length_drop]) hrg))
        simp only [stripFencesAux]
        by_cases hb : ("```".toList).isPrefixOf (a :: r) = true
        · rw [if_pos hb, if_pos hb]
          exact ih _ _ hsf hsg
        · rw [if_neg hb, if_neg hb]
          exact congrArg (a :: ·) (ih _ _ hrf hrg)

lemma stripFences_cons_ne (a : Char) (r : List Char)
    (h : ("```".toList).isPrefixOf (a :: r) = false) :
    stripFences (a :: r) = a :: stripFences r := by
  have hne : ¬(("```".toList).isPrefixOf (a :: r) = true) := by
    rw [h]; exact Bool.false_ne_true
  show stripFencesAux (r.length + 1) (a :: r) = a :: stripFencesAux r.length r
  simp only [stripFencesAux]
  rw [if_neg hne]

lemma stripFences_fence (a : Char) (r : List Char)
    (h : ("```".toList).isPrefixOf (a :: r) = true) :
    stripFences (a :: r) = stripFences (nlDrop (tagDrop (r.drop 2))) := by
  show stripFencesAux (r.length + 1) (a :: r) = _
  simp only [stripFencesAux]
  rw [if_pos h]
  exact stripFencesAux_congr _ _ _
    (le_trans (nlDrop_length_le _) (le_trans (tagDrop_length_le _)
      (by simp [List.length_drop])))
    (Nat.le_refl _)

lemma stripFences_content (c : List Char) (hc : bt ∉ c) :
    stripFences (c ++ "\n```".toList) = c ++ ['\n'] := by
  induction c with
  | nil =>
    rw [List.nil_append, List.nil_append]
    decide
  | cons a c2 ih =>
    have hc2 : bt ∉ c2 := fun hm => hc (List.mem_cons_of_mem _ hm)
    have hane : bt ≠ a := fun e => hc (e ▸ List.mem_cons_self _ _)
    have hmiss : ("```".toList).isPrefixOf (a :: (c2 ++ "\n```".toList)) = false := by
      rw [fence3_chars]
      exact isPrefixOf_head_ne _ _ _ _ hane
    rw [List.cons_append, stripFences_cons_ne _ _ hmiss, ih hc2]
    rfl


lemma tagDrop_typescript (x : List Char) :
    tagDrop ("typescript".toList ++ x) = x := by
  have h := isPrefixOf_append_self "typescript".toList x
  simp only [tagDrop]
  rw [if_pos h]
  rfl

lemma tagDrop_tsx (x : List Char) : tagDrop ("tsx".toList ++ x) = x := by
  have h1 : ("typescript".toList).isPrefixOf ("tsx".toList ++ x) = false := rfl
  have h2 := isPrefixOf_append_self "tsx".toList x
  simp only [tagDrop]
  rw [if_neg (by rw [h1]; exact Bool.false_ne_true), if_pos h2]
  rfl

lemma tagDrop_ts (x : List Char) :
    tagDrop ("ts".toList ++ ('\n' :: x)) = '\n' :: x := by
  have h1 : ("typescript".toList).isPrefixOf ("ts".toList ++ ('\n' :: x)) = false := rfl
  have h2 : ("tsx".toList).isPrefixOf ("ts".toList ++ ('\n' :: x)) = false := rfl
  have h3 := isPrefixOf_append_self "ts".toList ('\n' :: x)
  simp only [tagDrop]
  rw [if_neg (by rw [h1]; exact Bool.false_ne_true),
    if_neg (by rw [h2]; exact Bool.false_ne_true), if_pos h3]
  rfl

lemma tagDrop_nl (x : List Char) : tagDrop ('\n' :: x) = '\n' :: x := by
  have h1 : ("typescript".toList).isPrefixOf ('\n' :: x) = false := rfl
  have h2 : ("tsx".toList).isPrefixOf ('\n' :: x) = false := rfl
  have h3 : ("ts".toList).isPrefixOf ('\n' :: x) = false := rfl
  simp only [tagDrop]
  rw [if_neg (by rw [h1]; exact Bool.false_ne_true),
    if_neg (by rw [h2]; exact Bool.false_ne_true),
    if_neg (by rw [h3]; exact Bool.false_ne_true)]

lemma nlDrop_nl (x : List Char) : nlDrop ('\n' :: x) = x := by
  simp [nlDrop]

lemma stripFences_openT (x : List Char) :
    stripFences ("```typescript\n".toList ++ x) = stripFences x := by
  have h : ("```".toList).isPrefixOf (bt :: ("``typescript\n".toList ++ x)) = true := by
    rw [ List.isPrefixOf_iff_prefix]
    exact List.IsPrefix.trans
      (by decide : "```".toList <+: "```typescript\n".toList)
      (List.prefix_append "```typescript\n".toList x)
  have hstep := stripFences_fence bt ("``typescript\n".toList ++ x) h
  have h2 : nlDrop (tagDrop ("typescript".toList ++ ('\n' :: x))) = x := by
    rw [tagDrop_typescript]
    exact nlDrop_nl x
  calc stripFences ("```typescript\n".toList ++ x)
      = stripFences (nlDrop (tagDrop (("``typescript\n".toList ++ x).drop 2))) := hstep
    _ = stripFences x := congrArg stripFences h2

lemma stripFences_openX (x : List Char) :
    stripFences ("```tsx\n".toList ++ x) = stripFences x := by
  have h : ("```".toList).isPrefixOf (bt :: ("``tsx\n".toList ++ x)) = true := by
    rw [ List.isPrefixOf_iff_prefix]
    exact List.IsPrefix.trans
      (by decide : "```".toList <+: "```tsx\n".toList)
      (List.prefix_append "```tsx\n".toList x)
  have hstep := stripFences_fence bt ("``tsx\n".toList ++ x) h
  have h2 : nlDrop (tagDrop ("tsx".toList ++ ('\n' :: x))) = x := by
    rw [tagDrop_tsx]
    exact nlDrop_nl x
  calc stripFences ("```tsx\n".toList ++ x)
      = stripFences (nlDrop (tagDrop (("``tsx\n".toList ++ x).drop 2))) := hstep
    _ = stripFences x := congrArg stripFences h2

lemma stripFences_openS (x : List Char) :
    stripFences ("```ts\n".toList ++ x) = stripFences x := by
  have h : ("```".toList).isPrefixOf (bt :: ("``ts\n".toList ++ x)) = true := by
    rw [ List.isPrefixOf_iff_prefix]
    exact List.IsPrefix.trans
      (by decide : "```".toList <+: "```ts\n".toList)
      (List.prefix_append "```ts\n".toList x)
  have hstep := stripFences_fence bt ("``ts\n".toList ++ x) h
  have h2 : nlDrop (tagDrop ("ts".toList ++ ('\n' :: x))) = x := by
    rw [tagDrop_ts]
    exact nlDrop_nl x
  calc stripFences ("```ts\n".toList ++ x)
      = stripFences (nlDrop (tagDrop (("``ts\n".toList ++ x).drop 2))) := hstep
    _ = stripFences x := congrArg stripFences h2

lemma stripFences_openE (x : List Char) :
    stripFences ("```\n".toList ++ x) = stripFences x := by
  have h : ("```".toList).isPrefixOf (bt :: ("``\n".toList ++ x)) = true := by
    rw [ List.isPrefixOf_iff_prefix]
    exact List.IsPrefix.trans
      (by decide : "```".toList <+: "```\n".toList)
      (List.prefix_append "```\n".toList x)
  have hstep := stripFences_fence bt ("``\n".toList ++ x) h
  have h2 : nlDrop (tagDrop ('\n' :: x)) = x := by
    rw [tagDrop_nl]
    exact nlDrop_nl x
  calc stripFences ("```\n".toList ++ x)
      = stripFences (nlDrop (tagDrop (("``\n".toList ++ x).drop 2))) := hstep
    _ = stripFences x := congrArg stripFences h2

lemma stripEndFence_content (c : List Char) :
    stripEndFence (c ++ ['\n']) = c ++ ['\n'] := by
  have hso : ("\n```".toList).isSuffixOf (c ++ ['\n']) = false := by
    simp only [List.isSuffixOf]
    rw [show ("\n```".toList).reverse = bt :: bt :: bt :: '\n' :: [] from by decide]
    rw [List.reverse_append]
    simp only [List.reverse_cons, List.reverse_nil, List.nil_append, List.singleton_append]
    exact isPrefixOf_head_ne _ _ _ _ (by decide)
  simp only [stripEndFence]
  rw [if_neg (by rw [hso]; exact Bool.false_ne_true)]

lemma jsTrim_append_nl (c : List Char) : jsTrim (c ++ ['\n']) = jsTrim c := by
  have h : trimRight (c ++ ['\n']) = trimRight c := by
    simp only [trimRight, List.reverse_append, List.reverse_cons, List.reverse_nil,
      List.nil_append, List.singleton_append]
    rw [List.dropWhile_cons]
    simp [wsChar]
  simp only [jsTrim, h]


lemma extract_block_list (pre c post op : List Char)
    (hop : op = "```typescript\n".toList ∨ op = "```tsx\n".toList ∨
      op = "```ts\n".toList ∨ op = "```\n".toList)
    (hpre : bt ∉ pre) (hc : bt ∉ c) :
    extractCodeFromResponse ⟨pre ++ (op ++ (c ++ ("\n```".toList ++ post)))⟩ =
      ⟨jsTrim c⟩ := by
  have hm := firstMatch_block pre c post op hop hpre hc
  have hs : stripFences (op ++ c ++ "\n```".toList) = c ++ ['\n'] := by
    rw [List.append_assoc]
    rcases hop with rfl | rfl | rfl | rfl
    · rw [stripFences_openT]; exact stripFences_content c hc
    · rw [stripFences_openX]; exact stripFences_content c hc
    · rw [stripFences_openS]; exact stripFences_content c hc
    · rw [stripFences_openE]; exact stripFences_content c hc
  have htl : (String.mk (pre ++ (op ++ (c ++ ("\n```".toList ++ post))))).toList =
      pre ++ (op ++ (c ++ ("\n```".toList ++ post))) := rfl
  simp only [extractCodeFromResponse, htl, hm]
  rw [hs, stripEndFence_content, jsTrim_append_nl]

example :
    extractCodeFromResponse ⟨"before ".toList ++ ("```tsx\n".toList ++
      ("const x = 1".toList ++ ("\n```".toList ++ " after".toList)))⟩ = ⟨jsTrim "const x = 1".toList⟩ :=
  extract_block_list _ _ _ _ (Or.inr (Or.inl rfl)) (by decide) (by decide)


lemma extract_block_str (pre tag c post : String)
    (htag : tag = "typescript" ∨ tag = "tsx" ∨ tag = "ts" ∨ tag = "")
    (hpre : bt ∉ pre.toList) (hc : bt ∉ c.toList) :
    extractCodeFromResponse (pre ++ "```" ++ tag ++ "\n" ++ c ++ "\n```" ++ post) =
      strTrim c := by
  have hb : ∀ (oplit : String),
      oplit.toList = "```typescript\n".toList ∨ oplit.toList = "```tsx\n".toList ∨
        oplit.toList = "```ts\n".toList ∨ oplit.toList = "```\n".toList →
      extractCodeFromResponse (pre ++ (oplit ++ (c ++ ("\n```" ++ post)))) = strTrim c := by
    intro oplit hop
    have hkey : (pre ++ (oplit ++ (c ++ ("\n```" ++ post)))) =
        String.mk (pre.toList ++ (oplit.toList ++ (c.toList ++ ("\n```".toList ++ post.toList)))) := by
      apply String.ext
      simp [String.data_append]
    rw [hkey]
    exact extract_block_list pre.toList c.toList post.toList oplit.toList hop hpre hc
  have hassoc : (pre ++ "```" ++ tag ++ "\n" ++ c ++ "\n```" ++ post) =
      (pre ++ (("```" ++ tag ++ "\n") ++ (c ++ ("\n```" ++ post)))) := by
    simp [String.append_assoc]
  rw [hassoc]
  rcases htag with rfl | rfl | rfl | rfl
  · exact hb _ (Or.inl (by decide))
  · exact hb _ (Or.inr (Or.inl (by decide)))
  · exact hb _ (Or.inr (Or.inr (Or.inl (by decide))))
  · exact hb _ (Or.inr (Or.inr (Or.inr (by decide))))


lemma filter_key_of_filtered (l : List (String × String)) (p : String) :
    (l.filter (fun kv => !(kv.1 == p))).filter (fun kv => kv.1 == p) = [] := by
  induction l with
  | nil => rfl
  | cons kv l2 ih =>
    by_cases h : kv.1 == p
    · simp [List.filter_cons, h, ih]
    · simp only [List.filter_cons, h]
      simp only [Bool.not_false, if_true]
      simp [List.filter_cons, h, ih]

lemma readFileSync_failing (fs : FileSystem) (p : String)
    (h : fs.failing.contains p = true) :
    readFileSync fs p = .error (.readFailed p) := by
  simp only [readFileSync]
  rw [if_pos h]

lemma readFileSync_ok (fs : FileSystem) (p c : String)
    (h1 : fs.failing.contains p = false) (h2 : fs.files.lookup p = some c) :
    readFileSync fs p = .ok c := by
  simp only [readFileSync]
  rw [if_neg (by rw [h1]; exact Bool.false_ne_true), h2]

lemma readFileSync_none (fs : FileSystem) (p : String)
    (h1 : fs.failing.contains p = false) (h2 : fs.files.lookup p = none) :
    readFileSync fs p = .error (.notAFile p) := by
  simp only [readFileSync]
  rw [if_neg (by rw [h1]; exact Bool.false_ne_true), h2]

lemma writeFileSync_spec (fs : FileSystem) (p content : String)
    (h : fs.failing.contains p = false) :
    ∃ fs2, writeFileSync fs p content = .ok fs2 ∧
      fileContent fs2 p = some content ∧
      contentsAt fs2 p = [content] ∧
      fs2.dirs = fs.dirs ∧ fs2.failing = fs.failing := by
  refine ⟨⟨fs.dirs, (p, content) :: fs.files.filter (fun kv => !(kv.1 == p)), fs.failing⟩,
    ?_, ?_, ?_, rfl, rfl⟩
  · simp only [writeFileSync]
    rw [if_neg (by rw [h]; exact Bool.false_ne_true)]
  · simp [fileContent]
  · simp only [contentsAt, List.filter_cons, beq_self_eq_true, if_true]
    rw [filter_key_of_filtered]
    rfl

lemma saveGeneratedUI_spec (g : UIGenerator) (code : String) (fs : FileSystem)
    (h1 : fs.failing.contains (joinPath g.projectRoot "app") = false)
    (h2 : fs.failing.contains
      (joinPath (joinPath g.projectRoot "app") "GeneratedUI.tsx") = false) :
    ∃ fs2, saveGeneratedUI g code fs =
        .ok (joinPath (joinPath g.projectRoot "app") "GeneratedUI.tsx", fs2) ∧
      fileContent fs2 (joinPath (joinPath g.projectRoot "app") "GeneratedUI.tsx") =
        some code ∧
      contentsAt fs2 (joinPath (joinPath g.projectRoot "app") "GeneratedUI.tsx") =
        [code] ∧
      fs2.failing = fs.failing ∧
      (existsSync fs (joinPath g.projectRoot "app") = false →
        fs2.dirs.contains (joinPath g.projectRoot "app") = true) := by
  by_cases hex : existsSync fs (joinPath g.projectRoot "app") = true
  · obtain ⟨fs2, hw, hfc, hca, hd, hfl⟩ := writeFileSync_spec fs
      (joinPath (joinPath g.projectRoot "app") "GeneratedUI.tsx") code h2
    refine ⟨fs2, ?_, hfc, hca, hfl, ?_⟩
    · simp only [saveGeneratedUI, hex, Bool.not_true, Bool.false_eq_true, if_false, hw]
    · intro hc
      rw [hex] at hc
      cases hc
  · have hex2 : existsSync fs (joinPath g.projectRoot "app") = false :=
      Bool.eq_false_iff.mpr hex
    have hmk : mkdirSync fs (joinPath g.projectRoot "app") =
        .ok { fs with dirs := joinPath g.projectRoot "app" :: fs.dirs } := by
      simp only [mkdirSync]
      rw [if_neg (by rw [h1]; exact Bool.false_ne_true)]
    obtain ⟨fs2, hw, hfc, hca, hd, hfl⟩ := writeFileSync_spec
      { fs with dirs := joinPath g.projectRoot "app" :: fs.dirs }
      (joinPath (joinPath g.projectRoot "app") "GeneratedUI.tsx") code h2
    refine ⟨fs2, ?_, hfc, hca, hfl, ?_⟩
    · simp only [saveGeneratedUI, hex2, Bool.not_false, if_true, hmk, hw]
    · intro _
      rw [hd]
      simp [List.contains_cons]

lemma validateGeneratedUI_iff (fs : FileSystem) (p : String) :
    (validateGeneratedUI fs p = true ↔
      ∃ c, fileContent fs p = some c ∧ fs.failing.contains p = false ∧
        missingElements c = []) ∧
    (fileContent fs p = none → validateGeneratedUI fs p = false) := by
  constructor
  · constructor
    · intro hv
      simp only [validateGeneratedUI] at hv
      by_cases hex : existsSync fs p = true
      · rw [hex] at hv
        simp only [Bool.not_true, Bool.false_eq_true, if_false] at hv
        by_cases hfl : fs.failing.contains p = true
        · rw [readFileSync_failing fs p hfl] at hv
          cases hv
        · have hfl2 : fs.failing.contains p = false := Bool.eq_false_iff.mpr hfl
          cases hlk : fs.files.lookup p with
          | none =>
            rw [readFileSync_none fs p hfl2 hlk] at hv
            cases hv
          | some c =>
            rw [readFileSync_ok fs p c hfl2 hlk] at hv
            refine ⟨c, hlk, hfl2, ?_⟩
            have hv2 : ((missingElements c).length == 0) = true := hv
            exact List.length_eq_zero.mp (by simpa using hv2)
      · rw [Bool.eq_false_iff.mpr hex] at hv
        simp at hv
    · rintro ⟨c, hlk, hfl, hmiss⟩
      have hex : existsSync fs p = true := by
        simp only [existsSync]
        rw [show fs.files.lookup p = some c from hlk]
        simp
      simp only [validateGeneratedUI, hex, Bool.not_true, Bool.false_eq_true, if_false]
      rw [readFileSync_ok fs p c hfl hlk]
      simp [hmiss]
  · intro hnone
    simp only [validateGeneratedUI]
    by_cases hex : existsSync fs p = true
    · rw [hex]
      simp only [Bool.not_true, Bool.false_eq_true, if_false]
      by_cases hfl : fs.failing.contains p = true
      · rw [readFileSync_failing fs p hfl]
      · rw [readFileSync_none fs p (Bool.eq_false_iff.mpr hfl) hnone]
    · rw [Bool.eq_false_iff.mpr hex]
      simp


lemma callGeminiAPI_none (prompt : String) (api : ApiResponse) :
    callGeminiAPI none prompt api = ⟨generateEnhancedFallbackUI, none⟩ := rfl

lemma callGeminiAPI_failure (key prompt : String) (api : ApiResponse)
    (hf : apiFailure api = true) :
    callGeminiAPI (some key) prompt api = ⟨generateEnhancedFallbackUI, some ⟨key, prompt⟩⟩ := by
  cases api with
  | fetchError => rfl
  | httpError s => rfl
  | jsonError => rfl
  | success t =>
    simp only [apiFailure] at hf
    have he : t.getD "" = "" := eq_of_beq hf
    simp only [callGeminiAPI]
    rw [if_pos he]

lemma callGeminiAPI_success (key prompt t : String) (ht : ¬(t = "")) :
    callGeminiAPI (some key) prompt (ApiResponse.success (some t)) =
      ⟨extractCodeFromResponse t, some ⟨key, prompt⟩⟩ := by
  simp only [callGeminiAPI, Option.getD]
  rw [if_neg ht]

lemma callGeminiAPI_request_some (key prompt : String) (api : ApiResponse) :
    (callGeminiAPI (some key) prompt api).request = some ⟨key, prompt⟩ := by
  cases api with
  | fetchError => rfl
  | httpError s => rfl
  | jsonError => rfl
  | success t =>
    simp only [callGeminiAPI]
    split <;> rfl

lemma fallback_ne_empty : generateEnhancedFallbackUI ≠ "" := by decide

lemma generateUI_eq (g : UIGenerator) (o : UIGenerationOptions) (api : ApiResponse)
    (fs : FileSystem) :
    g.generateUI o api fs =
      (match saveGeneratedUI g
          (callGeminiAPI g.apiKey (buildUIPrompt o.appIdea o) api).code fs with
        | .ok (p, f2) =>
          .ok (p, f2, (callGeminiAPI g.apiKey (buildUIPrompt o.appIdea o) api).request)
        | .error e => .error e) := rfl

/-- C1: the generation call is a total function (it never fails); with no
credential it issues no request and returns exactly the fallback template
text, and on every classified failure of the API path it likewise returns
exactly the fallback template text. -/
theorem c1_generation_never_fails_and_falls_back :
    (∀ (prompt : String) (api : ApiResponse),
      callGeminiAPI none prompt api = ⟨generateEnhancedFallbackUI, none⟩) ∧
    (∀ (key prompt : String) (api : ApiResponse), apiFailure api = true →
      (callGeminiAPI (some key) prompt api).code = generateEnhancedFallbackUI) := by
  refine ⟨callGeminiAPI_none, ?_⟩
  intro key prompt api hf
  rw [callGeminiAPI_failure key prompt api hf]

/-- Witness for C1 at concrete inputs. -/
theorem c1_witness :
    callGeminiAPI none "p" ApiResponse.fetchError = ⟨generateEnhancedFallbackUI, none⟩ ∧
    (callGeminiAPI (some "k") "p" (ApiResponse.httpError 500)).code =
      generateEnhancedFallbackUI :=
  ⟨c1_generation_never_fails_and_falls_back.1 "p" ApiResponse.fetchError,
   c1_generation_never_fails_and_falls_back.2 "k" "p" (ApiResponse.httpError 500) (by decide)⟩

/-- C8 counterexample: a successful response whose text is a single blank
makes the generation call return the empty string, so the returned text is
not always non-empty. -/
theorem c8_counterexample :
    (callGeminiAPI (some "key") "prompt" (ApiResponse.success (some " "))).code = "" := by
  decide

/-- C8 (amended): the returned text is non-empty on the no-credential path
and on every classified failure path (the fallback template is non-empty);
on the success path with non-empty model text the result is exactly the
extractor output, which can be empty, so non-emptiness does not hold
unconditionally. -/
theorem c8_nonempty_only_on_fallback_paths :
    (generateEnhancedFallbackUI ≠ "") ∧
    (∀ (prompt : String) (api : ApiResponse),
      (callGeminiAPI none prompt api).code ≠ "") ∧
    (∀ (key prompt : String) (api : ApiResponse), apiFailure api = true →
      (callGeminiAPI (some key) prompt api).code ≠ "") ∧
    (∀ (key prompt t : String), ¬(t = "") →
      (callGeminiAPI (some key) prompt (ApiResponse.success (some t))).code =
        extractCodeFromResponse t) := by
  refine ⟨fallback_ne_empty, ?_, ?_, ?_⟩
  · intro prompt api
    rw [callGeminiAPI_none]
    exact fallback_ne_empty
  · intro key prompt api hf
    rw [callGeminiAPI_failure key prompt api hf]
    exact fallback_ne_empty
  · intro key prompt t ht
    rw [callGeminiAPI_success key prompt t ht]

/-- Witness for C8 (amended) at concrete inputs. -/
theorem c8_witness :
    (callGeminiAPI (some "k") "p" ApiResponse.jsonError).code ≠ "" ∧
    (callGeminiAPI (some "k") "p" (ApiResponse.success (some "abc"))).code =
      extractCodeFromResponse "abc" :=
  ⟨c8_nonempty_only_on_fallback_paths.2.2.1 "k" "p" ApiResponse.jsonError (by decide),
   c8_nonempty_only_on_fallback_paths.2.2.2 "k" "p" "abc" (by decide)⟩

/-- C9 counterexample: with the environment credential `env-key` and an
options value carrying `apiKey = some options-key`, the issued request is
authenticated with `env-key`: the options field does not override the
construction-time credential. -/
theorem c9_counterexample :
    requestOf ((UIGenerator.make "/proj" (some "env-key")).generateUI
        ⟨"app", none, none, some "options-key"⟩ ApiResponse.fetchError ⟨[], [], []⟩) =
      some ⟨"env-key", buildUIPrompt "app" ⟨"app", none, none, some "options-key"⟩⟩ ∧
    ("env-key" : String) ≠ "options-key" :=
  ⟨rfl, by decide⟩

/-- C9 (amended): the `apiKey` field of the options is accepted but
ignored: replacing it changes nothing about the run, and every issued
request is authenticated with the credential resolved at construction. -/
theorem c9_options_api_key_ignored :
    (∀ (g : UIGenerator) (o : UIGenerationOptions) (k : Option String)
        (api : ApiResponse) (fs : FileSystem),
      g.generateUI ⟨o.appIdea, o.theme, o.features, k⟩ api fs = g.generateUI o api fs) ∧
    (∀ (g : UIGenerator) (o : UIGenerationOptions) (api : ApiResponse) (fs : FileSystem)
        (path : String) (fs2 : FileSystem) (req : GeminiRequest),
      g.generateUI o api fs = .ok (path, fs2, some req) → g.apiKey = some req.key) := by
  constructor
  · intro g o k api fs
    rfl
  · intro g o api fs path fs2 req h
    rw [generateUI_eq] at h
    cases hk : g.apiKey with
    | none =>
      rw [hk] at h
      cases hs : saveGeneratedUI g
          (callGeminiAPI none (buildUIPrompt o.appIdea o) api).code fs with
      | ok v =>
        rw [hs] at h
        cases v with
        | mk p f2 =>
          rw [callGeminiAPI_none] at h
          cases h
      | error e =>
        rw [hs] at h
        cases h
    | some key =>
      rw [hk] at h
      cases hs : saveGeneratedUI g
          (callGeminiAPI (some key) (buildUIPrompt o.appIdea o) api).code fs with
      | ok v =>
        rw [hs] at h
        cases v with
        | mk p f2 =>
          rw [callGeminiAPI_request_some] at h
          cases h
          rfl
      | error e =>
        rw [hs] at h
        cases h

/-- Witness for C9 (amended) at concrete inputs. -/
theorem c9_witness :
    (UIGenerator.make "/r" (some "K")).generateUI ⟨"i", none, none, some "Z"⟩
        ApiResponse.jsonError ⟨[], [], []⟩ =
      (UIGenerator.make "/r" (some "K")).generateUI ⟨"i", none, none, none⟩
        ApiResponse.jsonError ⟨[], [], []⟩ ∧
    (UIGenerator.make "/r" (some "K")).apiKey = some "K" :=
  ⟨c9_options_api_key_ignored.1 (UIGenerator.make "/r" (some "K"))
      ⟨"i", none, none, none⟩ (some "Z") ApiResponse.jsonError ⟨[], [], []⟩,
   c9_options_api_key_ignored.2 (UIGenerator.make "/r" (some "K"))
      ⟨"i", none, none, some "Z"⟩ (ApiResponse.success (some "code")) ⟨[], [], []⟩
      (joinPath (joinPath "/r" "app") "GeneratedUI.tsx")
      ⟨[joinPath "/r" "app"],
        [(joinPath (joinPath "/r" "app") "GeneratedUI.tsx", "code")], []⟩
      ⟨"K", buildUIPrompt "i" ⟨"i", none, none, some "Z"⟩⟩ rfl⟩

/-- C10: the `features` field is destructured but never used: two options
values differing only in `features` yield the same prompt text and the
same end-to-end behaviour. -/
theorem c10_features_never_used :
    ∀ (o : UIGenerationOptions) (f : Option (List String)),
      buildUIPrompt o.appIdea ⟨o.appIdea, o.theme, f, o.apiKey⟩ =
        buildUIPrompt o.appIdea o ∧
      ∀ (g : UIGenerator) (api : ApiResponse) (fs : FileSystem),
        g.generateUI ⟨o.appIdea, o.theme, f, o.apiKey⟩ api fs = g.generateUI o api fs :=
  fun _o _f => ⟨rfl, fun _g _api _fs => rfl⟩

/-- Witness for C10 at concrete inputs. -/
theorem c10_witness :
    buildUIPrompt "a" ⟨"a", none, some ["login", "search"], none⟩ =
      buildUIPrompt "a" ⟨"a", none, none, none⟩ :=
  (c10_features_never_used ⟨"a", none, none, none⟩ (some ["login", "search"])).1


/-- C2 counterexample: the input below contains exactly one fenced code
block in the sense of the extraction regex (the whole text is the unique
match), its content is `a三backtick b`, yet the extractor returns `ab`: the
cleanup deletes the fence marker inside the content as well, so the result
is not the content of the block with only the delimiters removed. -/
theorem c2_counterexample :
    firstMatch "```tsx\na```b\n```".toList = some "```tsx\na```b\n```".toList ∧
    extractCodeFromResponse "```tsx\na```b\n```" = "ab" ∧
    ("ab" : String) ≠ strTrim "a```b" :=
  ⟨by decide, by decide, by decide⟩

/-- C2 (amended): for text decomposing around one fenced block whose
opening fence carries a recognized tag (`typescript`, `tsx`, `ts`, or
none), provided the text before the block and the content of the block
contain no backtick, the extractor returns the content with fences and tag
removed and whitespace trimmed; with no fenced block it returns the whole
input trimmed; and the concrete end-to-end example extracts exactly
`const x = 1`. -/
theorem c2_extract_contract :
    (∀ (pre tag c post : String),
      (tag = "typescript" ∨ tag = "tsx" ∨ tag = "ts" ∨ tag = "") →
      bt ∉ pre.toList → bt ∉ c.toList →
      extractCodeFromResponse (pre ++ "```" ++ tag ++ "\n" ++ c ++ "\n```" ++ post) =
        strTrim c) ∧
    (∀ s : String, firstMatch s.toList = none →
      extractCodeFromResponse s = strTrim s) ∧
    extractCodeFromResponse "```tsx\nconst x = 1\n```" = "const x = 1" := by
  refine ⟨extract_block_str, ?_, by decide⟩
  intro s h
  simp only [extractCodeFromResponse, h]
  rfl

/-- Witness for C2 (amended) at concrete inputs. -/
theorem c2_witness :
    extractCodeFromResponse ("x " ++ "```" ++ "ts" ++ "\n" ++ "let y = 2" ++ "\n```" ++ " z") =
      strTrim "let y = 2" ∧
    extractCodeFromResponse "plain text" = strTrim "plain text" :=
  ⟨c2_extract_contract.1 "x " "ts" "let y = 2" " z"
      (Or.inr (Or.inr (Or.inl rfl))) (by decide) (by decide),
   c2_extract_contract.2.1 "plain text" (by decide)⟩

/-- C6 counterexample: with a fenced JSON block (content `null`) before a
fenced tsx block, the extractor returns the tsx content, not the content
of the first (JSON) block: an opening fence with an unrecognized tag is
not a match candidate. -/
theorem c6_counterexample :
    extractCodeFromResponse "```json\nnull\n```\n```tsx\nconst x = 1\n```" =
      "const x = 1" ∧
    ("const x = 1" : String) ≠ "null" :=
  ⟨by decide, by decide⟩

/-- C6 (amended): with two or more fenced blocks whose opening fences carry
recognized tags, only the content of the first block is returned and the
remainder is discarded (the text before the first block and its content
must contain no backtick); a first block with an unrecognized tag such as
`json` is skipped instead of extracted. -/
theorem c6_first_recognized_block :
    ∀ (pre tag1 c1 mid tag2 c2 post : String),
      (tag1 = "typescript" ∨ tag1 = "tsx" ∨ tag1 = "ts" ∨ tag1 = "") →
      (tag2 = "typescript" ∨ tag2 = "tsx" ∨ tag2 = "ts" ∨ tag2 = "") →
      bt ∉ pre.toList → bt ∉ c1.toList →
      extractCodeFromResponse
        (pre ++ "```" ++ tag1 ++ "\n" ++ c1 ++ "\n```" ++
          (mid ++ "```" ++ tag2 ++ "\n" ++ c2 ++ "\n```" ++ post)) = strTrim c1 :=
  fun pre tag1 c1 mid tag2 c2 post h1 _ hpre hc =>
    extract_block_str pre tag1 c1
      (mid ++ "```" ++ tag2 ++ "\n" ++ c2 ++ "\n```" ++ post) h1 hpre hc

/-- Witness for C6 (amended) at concrete inputs. -/
theorem c6_witness :
    extractCodeFromResponse
      ("" ++ "```" ++ "tsx" ++ "\n" ++ "first" ++ "\n```" ++
        ("\n" ++ "```" ++ "ts" ++ "\n" ++ "second" ++ "\n```" ++ "")) = strTrim "first" :=
  c6_first_recognized_block "" "tsx" "first" "\n" "ts" "second" ""
    (Or.inr (Or.inl rfl)) (Or.inr (Or.inr (Or.inl rfl))) (by decide) (by decide)

/-- C3: validation never throws (it is a total boolean function of the
filesystem); it passes exactly when the path has readable file content
containing all five required markers — equivalently, exactly when the
missing-marker list is empty — and it fails on a nonexistent path.  The
filesystem is consumed read-only: no operation of `validateGeneratedUI`
produces a new state. -/
theorem c3_validate_pass_iff_markers :
    ∀ (fs : FileSystem) (p : String),
      (validateGeneratedUI fs p = true ↔
        ∃ c, fileContent fs p = some c ∧ fs.failing.contains p = false ∧
          missingElements c = []) ∧
      (fileContent fs p = none → validateGeneratedUI fs p = false) :=
  validateGeneratedUI_iff

/-- Witness for C3 at concrete inputs: a file with all five markers passes
and a nonexistent path fails. -/
theorem c3_witness :
    validateGeneratedUI
      ⟨[], [("f", "\x27use client\x27 export default function GeneratedUI useFuyouStore onClick console.log")], []⟩
      "f" = true ∧
    validateGeneratedUI ⟨[], [], []⟩ "missing.tsx" = false :=
  ⟨(c3_validate_pass_iff_markers _ "f").1.mpr ⟨_, rfl, rfl, by decide⟩,
   (c3_validate_pass_iff_markers ⟨[], [], []⟩ "missing.tsx").2 rfl⟩

/-- C4: for every source text (and every filesystem on which the two
involved paths are writable), `saveGeneratedUI` returns the resolved path
`projectRoot/app/GeneratedUI.tsx`, stores exactly the given text there
(any prior content at the path is replaced, so a second write leaves only
the second content), creates the `app` directory when it was absent, and
raises no error when it already exists. -/
theorem c4_save_creates_and_overwrites :
    ∀ (g : UIGenerator) (code : String) (fs : FileSystem),
      fs.failing.contains (joinPath g.projectRoot "app") = false →
      fs.failing.contains
        (joinPath (joinPath g.projectRoot "app") "GeneratedUI.tsx") = false →
      ∃ fs2, saveGeneratedUI g code fs =
          .ok (joinPath (joinPath g.projectRoot "app") "GeneratedUI.tsx", fs2) ∧
        contentsAt fs2 (joinPath (joinPath g.projectRoot "app") "GeneratedUI.tsx") =
          [code] ∧
        (existsSync fs (joinPath g.projectRoot "app") = false →
          fs2.dirs.contains (joinPath g.projectRoot "app") = true) ∧
        (∀ code2, ∃ fs3, saveGeneratedUI g code2 fs2 =
            .ok (joinPath (joinPath g.projectRoot "app") "GeneratedUI.tsx", fs3) ∧
          contentsAt fs3 (joinPath (joinPath g.projectRoot "app") "GeneratedUI.tsx") =
            [code2]) := by
  intro g code fs h1 h2
  obtain ⟨fs2, hsave, _, hca, hfl, hdir⟩ := saveGeneratedUI_spec g code fs h1 h2
  refine ⟨fs2, hsave, hca, hdir, ?_⟩
  intro code2
  obtain ⟨fs3, hsave3, _, hca3, _, _⟩ := saveGeneratedUI_spec g code2 fs2
    (by rw [hfl]; exact h1) (by rw [hfl]; exact h2)
  exact ⟨fs3, hsave3, hca3⟩

/-- Witness for C4 at concrete inputs. -/
theorem c4_witness :
    ∃ fs2, saveGeneratedUI (UIGenerator.make "/p" none) "v1" ⟨[], [], []⟩ =
        .ok (joinPath (joinPath "/p" "app") "GeneratedUI.tsx", fs2) ∧
      contentsAt fs2 (joinPath (joinPath "/p" "app") "GeneratedUI.tsx") = ["v1"] ∧
      (existsSync ⟨[], [], []⟩ (joinPath "/p" "app") = false →
        fs2.dirs.contains (joinPath "/p" "app") = true) ∧
      (∀ code2, ∃ fs3, saveGeneratedUI (UIGenerator.make "/p" none) code2 fs2 =
          .ok (joinPath (joinPath "/p" "app") "GeneratedUI.tsx", fs3) ∧
        contentsAt fs3 (joinPath (joinPath "/p" "app") "GeneratedUI.tsx") = [code2]) :=
  c4_save_creates_and_overwrites (UIGenerator.make "/p" none) "v1" ⟨[], [], []⟩ rfl rfl

/-- C7: a filesystem error of the writing stage propagates out of
`generateUI` as the very same error value, and the writer is the only
stage that can fail: prompt building and the generation call are total
functions, and whenever the writer succeeds, `generateUI` succeeds. -/
theorem c7_writer_errors_propagate :
    ∀ (g : UIGenerator) (o : UIGenerationOptions) (api : ApiResponse) (fs : FileSystem),
      (∀ e : FsError,
        g.generateUI o api fs = .error e ↔
          saveGeneratedUI g
            (callGeminiAPI g.apiKey (buildUIPrompt o.appIdea o) api).code fs =
            .error e) ∧
      (∀ (path : String) (fs2 : FileSystem),
        saveGeneratedUI g
            (callGeminiAPI g.apiKey (buildUIPrompt o.appIdea o) api).code fs =
          .ok (path, fs2) →
        g.generateUI o api fs =
          .ok (path, fs2,
            (callGeminiAPI g.apiKey (buildUIPrompt o.appIdea o) api).request)) := by
  intro g o api fs
  constructor
  · intro e
    rw [generateUI_eq g o api fs]
    cases hs : saveGeneratedUI g
        (callGeminiAPI g.apiKey (buildUIPrompt o.appIdea o) api).code fs with
    | ok v =>
      cases v with
      | mk p f2 => simp
    | error e2 => simp
  · intro path fs2 hok
    rw [generateUI_eq g o api fs, hok]

/-- Witness for C7 at concrete inputs: a write failure on the output path
surfaces from `generateUI` as that same write error. -/
theorem c7_witness :
    (UIGenerator.make "/p" none).generateUI ⟨"a", none, none, none⟩ ApiResponse.fetchError
        ⟨[], [], [joinPath (joinPath "/p" "app") "GeneratedUI.tsx"]⟩ =
      .error (FsError.writeFailed (joinPath (joinPath "/p" "app") "GeneratedUI.tsx")) :=
  ((c7_writer_errors_propagate (UIGenerator.make "/p" none) ⟨"a", none, none, none⟩
      ApiResponse.fetchError
      ⟨[], [], [joinPath (joinPath "/p" "app") "GeneratedUI.tsx"]⟩).1
    (FsError.writeFailed (joinPath (joinPath "/p" "app") "GeneratedUI.tsx"))).mpr rfl

/-- C5: with no credential configured, `generateUI` on the issue-tracker
options returns the path `root/app/GeneratedUI.tsx` (which ends in
`GeneratedUI.tsx`) without issuing any request, and the written file
passes validation: the fallback template contains all five required
markers. -/
theorem c5_end_to_end_fallback :
    ∀ (root : String) (api : ApiResponse) (fs : FileSystem),
      fs.failing.contains (joinPath root "app") = false →
      fs.failing.contains (joinPath (joinPath root "app") "GeneratedUI.tsx") = false →
      ∃ fs2,
        (UIGenerator.make root none).generateUI ⟨"issue tracker", none, none, none⟩
            api fs =
          .ok (joinPath (joinPath root "app") "GeneratedUI.tsx", fs2, none) ∧
        ("GeneratedUI.tsx".toList).isSuffixOf
          (joinPath (joinPath root "app") "GeneratedUI.tsx").toList = true ∧
        validateGeneratedUI fs2 (joinPath (joinPath root "app") "GeneratedUI.tsx") =
          true := by
  intro root api fs h1 h2
  obtain ⟨fs2, hsave, hfc, _, hfl, _⟩ := saveGeneratedUI_spec (UIGenerator.make root none)
    generateEnhancedFallbackUI fs h1 h2
  refine ⟨fs2, ?_, ?_, ?_⟩
  · rw [generateUI_eq]
    rw [show callGeminiAPI (UIGenerator.make root none).apiKey
        (buildUIPrompt (UIGenerationOptions.mk "issue tracker" none none none).appIdea
          (UIGenerationOptions.mk "issue tracker" none none none)) api =
        CallResult.mk generateEnhancedFallbackUI none from rfl]
    rw [show (CallResult.mk generateEnhancedFallbackUI none).code =
        generateEnhancedFallbackUI from rfl]
    rw [show (CallResult.mk generateEnhancedFallbackUI none).request =
        (none : Option GeminiRequest) from rfl]
    rw [hsave]
    rfl
  · have hshape : (joinPath (joinPath root "app") "GeneratedUI.tsx").toList =
        (joinPath root "app" ++ "/").toList ++ "GeneratedUI.tsx".toList := by
      simp [joinPath, String.toList, String.data_append, String.append_assoc]
    have hsu : "GeneratedUI.tsx".toList <:+
        (joinPath (joinPath root "app") "GeneratedUI.tsx").toList := by
      rw [hshape]
      exact List.suffix_append _ _
    exact List.isSuffixOf_iff_suffix.mpr hsu
  · exact (validateGeneratedUI_iff fs2 _).1.mpr
      ⟨generateEnhancedFallbackUI, hfc, by rw [hfl]; exact h2, fallback_missing_none⟩

/-- Witness for C5 at concrete inputs. -/
theorem c5_witness :
    ∃ fs2,
      (UIGenerator.make "/w" none).generateUI ⟨"issue tracker", none, none, none⟩
          ApiResponse.fetchError ⟨[], [], []⟩ =
        .ok (joinPath (joinPath "/w" "app") "GeneratedUI.tsx", fs2, none) ∧
      ("GeneratedUI.tsx".toList).isSuffixOf
        (joinPath (joinPath "/w" "app") "GeneratedUI.tsx").toList = true ∧
      validateGeneratedUI fs2 (joinPath (joinPath "/w" "app") "GeneratedUI.tsx") = true :=
  c5_end_to_end_fallback "/w" ApiResponse.fetchError ⟨[], [], []⟩ rfl rfl

end Matura
